import Mathlib

/-!
Shallow embedding of the WazMeow multi-session connection orchestrator
(`internal/services/session_manager.go`) and the domain session model
(`internal/domain`).  The registry map is modelled as an association list
with distinct keys (Go map semantics via remove-then-append insertion);
time is a `Nat` parameter; external collaborators (the durable session
repository, the device store and the external WhatsApp client) are passed
in as explicit function or flag parameters so that every execution path of
the Go code corresponds to a choice of those parameters.
-/

namespace WazMeow

/-- `domain.SessionID` — a string identifier (UUID in the Go code). -/
abbrev SessionID := String

/-- `domain.Status` — the durable session status enumeration. -/
inductive DomainStatus where
  | disconnected
  | connecting
  | connected
  | error
deriving DecidableEq, Repr

/-- `services.ConnectionStatus` — the in-memory worker status enumeration. -/
inductive ConnectionStatus where
  | disconnected
  | connecting
  | connected
  | error
deriving DecidableEq, Repr

/-- `domain.Session` — the durable session row (the fields read by the
session manager: ID, Name, Status, WAJID, QRCode). -/
structure DomainSession where
  id : SessionID
  name : String
  status : DomainStatus
  wajid : String
  qrCode : String
deriving DecidableEq, Repr

/-- `store.Device` — the part of the whatsmeow device used by the session
manager: its optional stored JID (`Device.ID`). -/
structure Device where
  deviceID : Option String
deriving DecidableEq, Repr

/-- `services.SessionClient` — one worker.  `killPending` models the
occupancy of the one-slot buffered `KillChannel`; the `*whatsmeow.Client`
handle itself carries no orchestrator-visible state beyond the device ID. -/
structure SessionClient where
  deviceID : Option String
  killPending : Bool
  Status : ConnectionStatus
  LastSeen : Nat
deriving DecidableEq, Repr

/-- The registry map `sessions map[domain.SessionID]*SessionClient`,
modelled as an association list with distinct keys. -/
abbrev SessionMap := List (SessionID × SessionClient)

/-- Go map lookup `msm.sessions[sessionID]`. -/
def lookupSession : SessionMap → SessionID → Option SessionClient
  | [], _ => none
  | (k, v) :: rest, id => if k = id then some v else lookupSession rest id

/-- Go map `delete(msm.sessions, sessionID)`. -/
def removeSession : SessionMap → SessionID → SessionMap
  | [], _ => []
  | (k, v) :: rest, id =>
      if k = id then removeSession rest id else (k, v) :: removeSession rest id

/-- Go map assignment `msm.sessions[sessionID] = sessionClient`. -/
def insertSession (m : SessionMap) (id : SessionID) (c : SessionClient) : SessionMap :=
  removeSession m id ++ [(id, c)]

/-- `services.MultiSessionManager` — the registry state guarded by the
mutex: the session map and the configured maximum. -/
structure MSMState where
  sessions : SessionMap
  maxSessions : Nat
deriving DecidableEq, Repr

/-- `NewMultiSessionManager` — fresh registry with the default limit 50. -/
def NewMultiSessionManager : MSMState :=
  { sessions := [], maxSessions := 50 }

/-- `GetSessionCount` — `len(msm.sessions)`. -/
def GetSessionCount (msm : MSMState) : Nat :=
  msm.sessions.length

/-- `GetSessionStatus` — returns the worker status, or `disconnected`
when no worker is registered for the ID. -/
def GetSessionStatus (msm : MSMState) (id : SessionID) : ConnectionStatus :=
  match lookupSession msm.sessions id with
  | some c => c.Status
  | none => ConnectionStatus.disconnected

/-- Result of `cleanupSessionUnsafe`: the new map, the returned error
(the Go code returns `nil` on every path), whether the non-blocking kill
send succeeded, and whether `Client.Disconnect()` was called. -/
structure CleanupResult where
  sessions : SessionMap
  err : Option String
  killSignalSent : Bool
  disconnected : Bool
deriving DecidableEq, Repr

/-- `cleanupSessionUnsafe` — no-op returning `nil` when the ID is not in
the map; otherwise sends the kill signal (non-blocking: dropped when the
one-slot channel is already full), disconnects the client, and deletes
the map entry. -/
def cleanupSessionUnsafe (sessions : SessionMap) (id : SessionID) : CleanupResult :=
  match lookupSession sessions id with
  | none =>
      { sessions := sessions, err := none, killSignalSent := false, disconnected := false }
  | some sc =>
      { sessions := removeSession sessions id
        err := none
        killSignalSent := !sc.killPending
        disconnected := true }

/-- The error cases `StartSession` can return. -/
inductive StartError where
  | maxSessionsReached (max : Nat)
  | getSessionFailed (msg : String)
  | getDeviceFailed (msg : String)
deriving DecidableEq, Repr

/-- Result of `StartSession`: the new registry state, the returned error
(`none` = the Go `nil`), and whether a worker goroutine was spawned. -/
structure StartResult where
  msm : MSMState
  result : Option StartError
  spawnedWorker : Bool
deriving DecidableEq, Repr

/-- The tail of `StartSession` after the existing-worker check: capacity
check, database load, device retrieval, registration and spawn. -/
def startSessionRest (repoGetByID : SessionID → Except String DomainSession)
    (getOrCreateDevice : SessionID → String → Except String Device)
    (now : Nat) (msm : MSMState) (id : SessionID) : StartResult :=
  if msm.sessions.length ≥ msm.maxSessions then
    { msm := msm, result := some (StartError.maxSessionsReached msm.maxSessions)
      spawnedWorker := false }
  else
    match repoGetByID id with
    | Except.error e =>
        { msm := msm, result := some (StartError.getSessionFailed e), spawnedWorker := false }
    | Except.ok session =>
        match getOrCreateDevice id session.wajid with
        | Except.error e =>
            { msm := msm, result := some (StartError.getDeviceFailed e), spawnedWorker := false }
        | Except.ok device =>
            let sc : SessionClient :=
              { deviceID := device.deviceID, killPending := false
                Status := ConnectionStatus.disconnected, LastSeen := now }
            { msm := { msm with sessions := insertSession msm.sessions id sc }
              result := none
              spawnedWorker := true }

/-- `StartSession` — idempotent success when a worker is registered and
already connected; otherwise tears down any stale worker, checks
capacity, loads the session row, obtains a device, registers the new
worker and spawns its connection goroutine. -/
def StartSession (repoGetByID : SessionID → Except String DomainSession)
    (getOrCreateDevice : SessionID → String → Except String Device)
    (now : Nat) (msm : MSMState) (id : SessionID) : StartResult :=
  match lookupSession msm.sessions id with
  | some client =>
      if client.Status = ConnectionStatus.connected then
        { msm := msm, result := none, spawnedWorker := false }
      else
        startSessionRest repoGetByID getOrCreateDevice now
          { msm with sessions := (cleanupSessionUnsafe msm.sessions id).sessions } id
  | none => startSessionRest repoGetByID getOrCreateDevice now msm id

/-- Result of `StopSession`. -/
structure StopResult where
  msm : MSMState
  err : Option String
  disconnectCalled : Bool
deriving DecidableEq, Repr

/-- `StopSession` — takes the lock and delegates to `cleanupSessionUnsafe`. -/
def StopSession (msm : MSMState) (id : SessionID) : StopResult :=
  let c := cleanupSessionUnsafe msm.sessions id
  { msm := { msm with sessions := c.sessions }, err := c.err
    disconnectCalled := c.disconnected }

/-- `ConnectionStatus` → `domain.Status` conversion performed inside the
asynchronous status writer of `updateSessionStatus`. -/
def toDomainStatus : ConnectionStatus → DomainStatus
  | ConnectionStatus.disconnected => DomainStatus.disconnected
  | ConnectionStatus.connecting => DomainStatus.connecting
  | ConnectionStatus.connected => DomainStatus.connected
  | ConnectionStatus.error => DomainStatus.error

/-- Result of `updateSessionStatus`: the new in-memory map, the durable
write that the spawned goroutine attempts (if any), and how a write
failure is handled (logged, never fatal). -/
structure StatusUpdateResult where
  sessions : SessionMap
  dbWriteAttempted : Option (SessionID × DomainStatus)
  dbFailureLogged : Bool
  dbFailureFatal : Bool
deriving DecidableEq, Repr

/-- `updateSessionStatus` — when the worker is registered, sets its
in-memory status and `LastSeen` and spawns a time-bounded asynchronous
durable write whose outcome (`writeOk`) is only ever logged. -/
def updateSessionStatus (msm : MSMState) (id : SessionID) (status : ConnectionStatus)
    (now : Nat) (writeOk : Bool) : StatusUpdateResult :=
  match lookupSession msm.sessions id with
  | none =>
      { sessions := msm.sessions, dbWriteAttempted := none
        dbFailureLogged := false, dbFailureFatal := false }
  | some sc =>
      { sessions := insertSession msm.sessions id
          { sc with Status := status, LastSeen := now }
        dbWriteAttempted := some (id, toDomainStatus status)
        dbFailureLogged := !writeOk
        dbFailureFatal := false }

/-- A whatsmeow QR channel event (`evt.Event` in `handleQRCodeGeneration`). -/
inductive QREvent where
  | code (payload : String)
  | success
  | timeout
  | other (name : String)
deriving DecidableEq, Repr

/-- Trace of the QR event loop: the successive values passed to
`sessionRepo.SetQRCode` and the worker status transitions performed by
the loop itself. -/
structure QRTrace where
  dbQRWrites : List String
  statusUpdates : List ConnectionStatus
deriving DecidableEq, Repr

/-- The `for evt := range qrChan` loop of `handleQRCodeGeneration`.
`genImage` is the external base64-PNG encoder `generateQRCodeImage`
(`none` models an encoding error, in which case the loop logs and
continues).  A `code` event stores the generated image; `success` and
`timeout` both clear the stored QR code and return from the loop; any
other event is logged and skipped.  The loop never calls
`updateSessionStatus`. -/
def processQREvents (genImage : String → Option String) : List QREvent → QRTrace
  | [] => { dbQRWrites := [], statusUpdates := [] }
  | QREvent.code payload :: rest =>
      match genImage payload with
      | none => processQREvents genImage rest
      | some img =>
          let t := processQREvents genImage rest
          { dbQRWrites := img :: t.dbQRWrites, statusUpdates := t.statusUpdates }
  | QREvent.success :: _ => { dbQRWrites := [""], statusUpdates := [] }
  | QREvent.timeout :: _ => { dbQRWrites := [""], statusUpdates := [] }
  | QREvent.other _ :: rest => processQREvents genImage rest

/-- `handleQRCodeGeneration` — obtains the QR channel, connects, then
runs the event loop.  A `GetQRChannel` or `Connect` failure is logged and
the function returns without touching the store or the status. -/
def handleQRCodeGeneration (genImage : String → Option String)
    (qrChanOk connectOk : Bool) (events : List QREvent) : QRTrace :=
  if !qrChanOk then { dbQRWrites := [], statusUpdates := [] }
  else if !connectOk then { dbQRWrites := [], statusUpdates := [] }
  else processQREvents genImage events

/-- Trace of one execution of `handleSessionConnection`: the status
transitions it performs (via `updateSessionStatus`), whether
`Client.Disconnect()` was called before the goroutine exited, and whether
a panic was recovered and logged by the deferred handler. -/
structure ConnTrace where
  statusUpdates : List ConnectionStatus
  disconnectCalled : Bool
  panicRecoveredLogged : Bool
deriving DecidableEq, Repr

/-- `handleSessionConnection` — the worker goroutine body.  `panics`
models a panic occurring in the body after the initial `Connecting`
update: the deferred `recover` logs it and the goroutine exits with no
further action.  With a stored device ID the client connects directly
(`connectOk`); a connect error sets `Error` and returns.  Without a
stored ID the QR flow runs.  On the non-panic paths that reach the
kill/context wait, the client is disconnected and the status set to
`Disconnected` before exit. -/
def handleSessionConnection (genImage : String → Option String)
    (qrChanOk connectOk hasDeviceID panics : Bool) (events : List QREvent) : ConnTrace :=
  if panics then
    { statusUpdates := [ConnectionStatus.connecting]
      disconnectCalled := false
      panicRecoveredLogged := true }
  else if hasDeviceID then
    if connectOk then
      { statusUpdates := [ConnectionStatus.connecting, ConnectionStatus.disconnected]
        disconnectCalled := true
        panicRecoveredLogged := false }
    else
      { statusUpdates := [ConnectionStatus.connecting, ConnectionStatus.error]
        disconnectCalled := false
        panicRecoveredLogged := false }
  else
    let qr := handleQRCodeGeneration genImage qrChanOk connectOk events
    { statusUpdates :=
        ConnectionStatus.connecting :: (qr.statusUpdates ++ [ConnectionStatus.disconnected])
      disconnectCalled := true
      panicRecoveredLogged := false }

/-- A whatsmeow client event dispatched by the `setupEventHandlers`
type switch. -/
inductive ClientEvent where
  | connected
  | disconnected
  | pairSuccess (jid : String)
  | other
deriving DecidableEq, Repr

/-- Effect of the handler registered by `setupEventHandlers` on one event:
an optional worker status transition and an optional durable WAJID write. -/
structure HandlerEffect where
  statusUpdate : Option ConnectionStatus
  jidWrite : Option String
deriving DecidableEq, Repr

/-- The event handler installed by `setupEventHandlers`: `Connected` sets
the worker `Connected`, `Disconnected` sets it `Disconnected`,
`PairSuccess` stores the JID, everything else is ignored. -/
def eventHandler : ClientEvent → HandlerEffect
  | ClientEvent.connected =>
      { statusUpdate := some ConnectionStatus.connected, jidWrite := none }
  | ClientEvent.disconnected =>
      { statusUpdate := some ConnectionStatus.disconnected, jidWrite := none }
  | ClientEvent.pairSuccess jid => { statusUpdate := none, jidWrite := some jid }
  | ClientEvent.other => { statusUpdate := none, jidWrite := none }

/-- Errors returned by `GenerateQRCode`. -/
inductive QRCodeError where
  | sessionNotFound
  | alreadyConnected
  | getSessionFailed (msg : String)
  | stillGenerating
deriving DecidableEq, Repr

/-- Result of `GenerateQRCode`: the returned payload or error, and
whether an asynchronous QR generation flow was started. -/
structure GenerateQRResult where
  result : Except QRCodeError String
  startedGeneration : Bool
deriving Repr

/-- `GenerateQRCode` — returns the persisted QR payload when one exists;
otherwise spawns `handleQRCodeGeneration`, sleeps, re-reads the store
(`db2`, which may observe the concurrent flow's write) and either returns
the fresh payload or a try-again error.  `db1` and `db2` are the two
sequential `sessionRepo.GetByID` reads. -/
def GenerateQRCode (db1 db2 : SessionID → Except String DomainSession)
    (msm : MSMState) (id : SessionID) : GenerateQRResult :=
  match lookupSession msm.sessions id with
  | none => { result := Except.error QRCodeError.sessionNotFound, startedGeneration := false }
  | some sc =>
      if sc.Status = ConnectionStatus.connected then
        { result := Except.error QRCodeError.alreadyConnected, startedGeneration := false }
      else
        match db1 id with
        | Except.error e =>
            { result := Except.error (QRCodeError.getSessionFailed e)
              startedGeneration := false }
        | Except.ok session =>
            if session.qrCode ≠ "" then
              { result := Except.ok session.qrCode, startedGeneration := false }
            else
              match db2 id with
              | Except.ok session2 =>
                  if session2.qrCode ≠ "" then
                    { result := Except.ok session2.qrCode, startedGeneration := true }
                  else
                    { result := Except.error QRCodeError.stillGenerating
                      startedGeneration := true }
              | Except.error _ =>
                  { result := Except.error QRCodeError.stillGenerating
                    startedGeneration := true }

/-- The filtering loop of `connectOnStartup`: a session is started iff
its persisted status is `connected` and its WAJID is non-empty. -/
def startupLoop : List DomainSession → List SessionID
  | [] => []
  | s :: rest =>
      if s.status = DomainStatus.connected ∧ s.wajid ≠ "" then
        s.id :: startupLoop rest
      else
        startupLoop rest

/-- `connectOnStartup` — queries `GetConnectedSessions` (the `fetch`
argument; an error is logged and nothing is started) and returns the IDs
passed to `StartSession`, in order. -/
def connectOnStartup (fetch : Except String (List DomainSession)) : List SessionID :=
  match fetch with
  | Except.error _ => []
  | Except.ok sessions => startupLoop sessions

/-- Abstract actions of `StartSession` and the worker goroutine, used to
state the locking discipline: which blocking calls occur while the
registry mutex is held. -/
inductive RegAction where
  | lockAcquire
  | lockRelease
  | mapLookup
  | mapDelete
  | mapInsert
  | dbRead
  | deviceGet
  | spawnWorker
  | clientConnect
deriving DecidableEq, Repr

/-- The action trace of `StartSession`: `mutex.Lock()` with a deferred
unlock, map lookup, optional cleanup delete, capacity check, then —
still under the lock — `sessionRepo.GetByID` and
`storeManager.GetOrCreateDevice`, map insert and goroutine spawn. -/
def startSessionTrace (existsWorker alreadyConnected atCapacity dbOk deviceOk : Bool) :
    List RegAction :=
  [RegAction.lockAcquire, RegAction.mapLookup] ++
  (if existsWorker && alreadyConnected then
    [RegAction.lockRelease]
  else
    (if existsWorker then [RegAction.mapDelete] else []) ++
    (if atCapacity then
      [RegAction.lockRelease]
    else
      [RegAction.dbRead] ++
      (if !dbOk then
        [RegAction.lockRelease]
      else
        [RegAction.deviceGet] ++
        (if !deviceOk then
          [RegAction.lockRelease]
        else
          [RegAction.mapInsert, RegAction.spawnWorker, RegAction.lockRelease]))))

/-- The start of the spawned worker goroutine's trace: the initial
`updateSessionStatus(Connecting)` takes and releases the lock (its
durable write is asynchronous), and only then is the external client
connect attempted — with no lock held. -/
def workerThreadTrace : List RegAction :=
  [RegAction.lockAcquire, RegAction.mapLookup, RegAction.mapInsert, RegAction.lockRelease,
    RegAction.clientConnect]

/-- Whether an action is a blocking I/O or external-connect call. -/
def isIOAction : RegAction → Bool
  | RegAction.dbRead => true
  | RegAction.deviceGet => true
  | RegAction.clientConnect => true
  | _ => false

/-- The I/O actions of a trace that occur while the lock is held (`held`
is the lock state entering the trace). -/
def ioUnderLock : List RegAction → Bool → List RegAction
  | [], _ => []
  | RegAction.lockAcquire :: rest, _ => ioUnderLock rest true
  | RegAction.lockRelease :: rest, _ => ioUnderLock rest false
  | a :: rest, held =>
      (if held && isIOAction a then [a] else []) ++ ioUnderLock rest held

/-- A worker registered as connected, used to instantiate theorems. -/
def demoClientConnected : SessionClient :=
  { deviceID := some "dev1", killPending := false
    Status := ConnectionStatus.connected, LastSeen := 0 }

/-- A worker registered as connecting (mid-pairing), used to instantiate
theorems. -/
def demoClientConnecting : SessionClient :=
  { deviceID := none, killPending := false
    Status := ConnectionStatus.connecting, LastSeen := 0 }

/-- A registry holding one connected worker under ID "s1". -/
def demoMSM : MSMState :=
  { sessions := [("s1", demoClientConnected)], maxSessions := 50 }

/-- A repository stub whose `GetByID` always succeeds. -/
def demoRepo : SessionID → Except String DomainSession :=
  fun i =>
    Except.ok
      { id := i, name := "alice", status := DomainStatus.connected
        wajid := "1234@ext", qrCode := "" }

/-- A repository stub holding a persisted pending QR payload. -/
def demoRepoWithQR : SessionID → Except String DomainSession :=
  fun i =>
    Except.ok
      { id := i, name := "alice", status := DomainStatus.connecting
        wajid := "", qrCode := "data:image/png;base64,QUJD" }

/-- A device store stub whose `GetOrCreateDevice` always succeeds. -/
def demoDevices : SessionID → String → Except String Device :=
  fun _ _ => Except.ok { deviceID := some "dev1" }

/-- A stand-in for the external base64-PNG encoder that always succeeds. -/
def demoGenImage : String → Option String :=
  fun code => some ("data:image/png;base64," ++ code)

/-- A registry at capacity: one worker registered, maximum one. -/
def demoMSMFull : MSMState :=
  { sessions := [("a", demoClientConnected)], maxSessions := 1 }

/-- A registry holding one mid-pairing (connecting) worker under "s1". -/
def demoMSMConnecting : MSMState :=
  { sessions := [("s1", demoClientConnecting)], maxSessions := 50 }

/-- Helper: removing an ID leaves no binding for that ID. -/
theorem lookupSession_removeSession (m : SessionMap) (id : SessionID) :
    lookupSession (removeSession m id) id = none := by
  induction m with
  | nil => rfl
  | cons p rest ih =>
      obtain ⟨k, v⟩ := p
      by_cases hk : k = id
      · simpa [removeSession, hk] using ih
      · simpa [removeSession, lookupSession, hk] using ih

/-- Helper: lookup skips a prefix that does not bind the ID. -/
theorem lookupSession_append_of_none (l1 l2 : SessionMap) (id : SessionID)
    (h : lookupSession l1 id = none) :
    lookupSession (l1 ++ l2) id = lookupSession l2 id := by
  induction l1 with
  | nil => rfl
  | cons p rest ih =>
      obtain ⟨k, v⟩ := p
      rw [List.cons_append]
      by_cases hk : k = id
      · exfalso
        simp [lookupSession, hk] at h
      · simp only [lookupSession, if_neg hk] at h ⊢
        exact ih h

/-- Helper: Go map assignment makes the new binding visible to lookup. -/
theorem lookupSession_insertSession (m : SessionMap) (id : SessionID) (c : SessionClient) :
    lookupSession (insertSession m id c) id = some c := by
  unfold insertSession
  rw [lookupSession_append_of_none _ _ _ (lookupSession_removeSession m id)]
  simp [lookupSession]

/-- Claim C1: if a Worker is already registered for the session ID and
its observed in-memory status is connected, `StartSession` returns
success without creating a new Worker, without removing the existing
Worker, and without changing the registry map. -/
theorem startSession_connected_noop
    (repoGetByID : SessionID → Except String DomainSession)
    (getOrCreateDevice : SessionID → String → Except String Device)
    (now : Nat) (msm : MSMState) (id : SessionID) (sc : SessionClient)
    (hlook : lookupSession msm.sessions id = some sc)
    (hconn : sc.Status = ConnectionStatus.connected) :
    (StartSession repoGetByID getOrCreateDevice now msm id).result = none ∧
    (StartSession repoGetByID getOrCreateDevice now msm id).msm = msm ∧
    (StartSession repoGetByID getOrCreateDevice now msm id).spawnedWorker = false := by
  unfold StartSession
  rw [hlook]
  simp [hconn]

/-- Witness for C1 at the concrete registry `demoMSM`. -/
theorem startSession_connected_noop_witness :
    lookupSession demoMSM.sessions "s1" = some demoClientConnected ∧
    demoClientConnected.Status = ConnectionStatus.connected ∧
    ((StartSession demoRepo demoDevices 7 demoMSM "s1").result = none ∧
      (StartSession demoRepo demoDevices 7 demoMSM "s1").msm = demoMSM ∧
      (StartSession demoRepo demoDevices 7 demoMSM "s1").spawnedWorker = false) :=
  ⟨by decide, by decide,
    startSession_connected_noop demoRepo demoDevices 7 demoMSM "s1" demoClientConnected
      (by decide) (by decide)⟩

/-- Claim C2: with no Worker registered for the ID and the registry
holding as many Workers as the configured maximum (50 by default in
`NewMultiSessionManager`), `StartSession` fails with the capacity error,
registers nothing, and leaves the map and `GetSessionCount` unchanged. -/
theorem startSession_capacity_exceeded
    (repoGetByID : SessionID → Except String DomainSession)
    (getOrCreateDevice : SessionID → String → Except String Device)
    (now : Nat) (msm : MSMState) (id : SessionID)
    (hlook : lookupSession msm.sessions id = none)
    (hcap : msm.sessions.length = msm.maxSessions) :
    (StartSession repoGetByID getOrCreateDevice now msm id).result
        = some (StartError.maxSessionsReached msm.maxSessions) ∧
    (StartSession repoGetByID getOrCreateDevice now msm id).msm = msm ∧
    (StartSession repoGetByID getOrCreateDevice now msm id).spawnedWorker = false ∧
    GetSessionCount (StartSession repoGetByID getOrCreateDevice now msm id).msm
        = GetSessionCount msm ∧
    NewMultiSessionManager.maxSessions = 50 := by
  unfold StartSession
  rw [hlook]
  unfold startSessionRest
  rw [hcap]
  simp [GetSessionCount, NewMultiSessionManager]

/-- Witness for C2 at the concrete full registry `demoMSMFull`. -/
theorem startSession_capacity_exceeded_witness :
    lookupSession demoMSMFull.sessions "b" = none ∧
    demoMSMFull.sessions.length = demoMSMFull.maxSessions ∧
    ((StartSession demoRepo demoDevices 7 demoMSMFull "b").result
        = some (StartError.maxSessionsReached demoMSMFull.maxSessions) ∧
      (StartSession demoRepo demoDevices 7 demoMSMFull "b").msm = demoMSMFull ∧
      (StartSession demoRepo demoDevices 7 demoMSMFull "b").spawnedWorker = false ∧
      GetSessionCount (StartSession demoRepo demoDevices 7 demoMSMFull "b").msm
          = GetSessionCount demoMSMFull ∧
      NewMultiSessionManager.maxSessions = 50) :=
  ⟨by decide, by decide,
    startSession_capacity_exceeded demoRepo demoDevices 7 demoMSMFull "b"
      (by decide) (by decide)⟩

/-- Claim C9: `StopSession` on an ID with no registered Worker returns
success (the Go `nil`), calls no disconnect, and leaves the map
unchanged. -/
theorem stopSession_noWorker_noop (msm : MSMState) (id : SessionID)
    (h : lookupSession msm.sessions id = none) :
    (StopSession msm id).err = none ∧
    (StopSession msm id).msm = msm ∧
    (StopSession msm id).disconnectCalled = false := by
  simp [StopSession, cleanupSessionUnsafe, h]

/-- Witness for C9: stopping the unknown ID "zz" on `demoMSM`. -/
theorem stopSession_noWorker_noop_witness :
    lookupSession demoMSM.sessions "zz" = none ∧
    ((StopSession demoMSM "zz").err = none ∧
      (StopSession demoMSM "zz").msm = demoMSM ∧
      (StopSession demoMSM "zz").disconnectCalled = false) :=
  ⟨by decide, stopSession_noWorker_noop demoMSM "zz" (by decide)⟩

/-- Claim C10: `GetSessionStatus` on an ID with no registered Worker
returns `disconnected` rather than an error or a not-found result. -/
theorem getSessionStatus_unknown_disconnected (msm : MSMState) (id : SessionID)
    (h : lookupSession msm.sessions id = none) :
    GetSessionStatus msm id = ConnectionStatus.disconnected := by
  simp [GetSessionStatus, h]

/-- Witness for C10: querying the unknown ID "zz" on `demoMSM`. -/
theorem getSessionStatus_unknown_disconnected_witness :
    lookupSession demoMSM.sessions "zz" = none ∧
    GetSessionStatus demoMSM "zz" = ConnectionStatus.disconnected :=
  ⟨by decide, getSessionStatus_unknown_disconnected demoMSM "zz" (by decide)⟩

/-- Claim C7: for a registered worker, `updateSessionStatus` sets the
in-memory status and `LastSeen` regardless of the asynchronous durable
write's outcome: the resulting map is identical for a successful and a
failed write, a failed write is logged and is never fatal, and the new
binding is visible to lookup under every write outcome. -/
theorem updateSessionStatus_write_failure_swallowed
    (msm : MSMState) (id : SessionID) (status : ConnectionStatus) (now : Nat)
    (sc : SessionClient) (h : lookupSession msm.sessions id = some sc) :
    (∀ writeOk : Bool,
      (updateSessionStatus msm id status now writeOk).sessions
          = insertSession msm.sessions id { sc with Status := status, LastSeen := now }) ∧
    (updateSessionStatus msm id status now true).sessions
        = (updateSessionStatus msm id status now false).sessions ∧
    (updateSessionStatus msm id status now false).dbFailureLogged = true ∧
    (∀ writeOk : Bool, (updateSessionStatus msm id status now writeOk).dbFailureFatal = false) ∧
    (∀ writeOk : Bool,
      lookupSession (updateSessionStatus msm id status now writeOk).sessions id
          = some { sc with Status := status, LastSeen := now }) := by
  refine ⟨?_, ?_, ?_, ?_, ?_⟩ <;>
    simp [updateSessionStatus, h, lookupSession_insertSession]

/-- Witness for C7 at the concrete registry `demoMSM`. -/
theorem updateSessionStatus_write_failure_swallowed_witness :
    lookupSession demoMSM.sessions "s1" = some demoClientConnected ∧
    ((∀ writeOk : Bool,
        (updateSessionStatus demoMSM "s1" ConnectionStatus.error 9 writeOk).sessions
            = insertSession demoMSM.sessions "s1"
                { demoClientConnected with Status := ConnectionStatus.error, LastSeen := 9 }) ∧
      (updateSessionStatus demoMSM "s1" ConnectionStatus.error 9 true).sessions
          = (updateSessionStatus demoMSM "s1" ConnectionStatus.error 9 false).sessions ∧
      (updateSessionStatus demoMSM "s1" ConnectionStatus.error 9 false).dbFailureLogged = true ∧
      (∀ writeOk : Bool,
        (updateSessionStatus demoMSM "s1" ConnectionStatus.error 9 writeOk).dbFailureFatal
            = false) ∧
      (∀ writeOk : Bool,
        lookupSession (updateSessionStatus demoMSM "s1" ConnectionStatus.error 9 writeOk).sessions
            "s1"
            = some { demoClientConnected with Status := ConnectionStatus.error, LastSeen := 9 })) :=
  ⟨by decide,
    updateSessionStatus_write_failure_swallowed demoMSM "s1" ConnectionStatus.error 9
      demoClientConnected (by decide)⟩

/-- Claim C5: for a registered, not-connected session whose durable row
holds a non-empty pending QR payload, `GenerateQRCode` returns exactly
that persisted payload without starting a second pairing flow, and a
second call returns a byte-identical result irrespective of what the
post-sleep re-read would observe. -/
theorem generateQRCode_returns_cached
    (db1 db2 db2' : SessionID → Except String DomainSession)
    (msm : MSMState) (id : SessionID) (sc : SessionClient) (s : DomainSession)
    (hlook : lookupSession msm.sessions id = some sc)
    (hnc : sc.Status ≠ ConnectionStatus.connected)
    (hdb : db1 id = Except.ok s)
    (hqr : s.qrCode ≠ "") :
    (GenerateQRCode db1 db2 msm id).result = Except.ok s.qrCode ∧
    (GenerateQRCode db1 db2 msm id).startedGeneration = false ∧
    (GenerateQRCode db1 db2' msm id).result = (GenerateQRCode db1 db2 msm id).result := by
  unfold GenerateQRCode
  rw [hlook, hdb]
  simp [hnc, hqr]

/-- Witness for C5 at the mid-pairing registry `demoMSMConnecting` with
the stored payload of `demoRepoWithQR`. -/
theorem generateQRCode_returns_cached_witness :
    lookupSession demoMSMConnecting.sessions "s1" = some demoClientConnecting ∧
    demoClientConnecting.Status ≠ ConnectionStatus.connected ∧
    demoRepoWithQR "s1" = Except.ok
      { id := "s1", name := "alice", status := DomainStatus.connecting
        wajid := "", qrCode := "data:image/png;base64,QUJD" } ∧
    ((GenerateQRCode demoRepoWithQR demoRepo demoMSMConnecting "s1").result
        = Except.ok "data:image/png;base64,QUJD" ∧
      (GenerateQRCode demoRepoWithQR demoRepo demoMSMConnecting "s1").startedGeneration
          = false ∧
      (GenerateQRCode demoRepoWithQR demoRepoWithQR demoMSMConnecting "s1").result
          = (GenerateQRCode demoRepoWithQR demoRepo demoMSMConnecting "s1").result) :=
  ⟨by decide, by decide, by rfl,
    generateQRCode_returns_cached demoRepoWithQR demoRepo demoRepoWithQR demoMSMConnecting "s1"
      demoClientConnecting
      { id := "s1", name := "alice", status := DomainStatus.connecting
        wajid := "", qrCode := "data:image/png;base64,QUJD" }
      (by decide) (by decide) (by rfl) (by decide)⟩

/-- Claim C6: the startup resumer passes to `StartSession` exactly the
sessions returned by the durable store whose persisted status is
`connected` and whose WAJID is non-empty, and starts nothing when the
store query fails. -/
theorem connectOnStartup_exactly_connected_with_jid (sessions : List DomainSession) :
    connectOnStartup (Except.ok sessions)
        = (sessions.filter
            (fun s => decide (s.status = DomainStatus.connected ∧ s.wajid ≠ ""))).map
            DomainSession.id ∧
    (∀ e : String, connectOnStartup (Except.error e) = []) := by
  constructor
  · show startupLoop sessions = _
    induction sessions with
    | nil => rfl
    | cons s rest ih =>
        by_cases h : s.status = DomainStatus.connected ∧ s.wajid ≠ ""
        · simp only [startupLoop, if_pos h, List.filter_cons, decide_eq_true h,
            List.map_cons, ih]
          simp
        · simp only [startupLoop, if_neg h, List.filter_cons, decide_eq_false h, ih]
          simp
  · intro e
    rfl

/-- Claim C3 counterexample: on the recovered-panic exit path of
`handleSessionConnection`, the client is not disconnected and the status
is never set to `Error`, contradicting the claim that every exit path
performs a best-effort disconnect and that a recovered panic is mapped
to the Error state. -/
theorem handleSessionConnection_panic_path_counterexample :
    (handleSessionConnection demoGenImage true true true true []).panicRecoveredLogged = true ∧
    (handleSessionConnection demoGenImage true true true true []).disconnectCalled = false ∧
    ConnectionStatus.error ∉
      (handleSessionConnection demoGenImage true true true true []).statusUpdates := by
  decide

/-- Claim C3 amended: the Worker disconnects the client before its
thread exits on the non-panic paths that reach the kill/context wait
(direct connect succeeded, or the QR flow ran); on the direct-connect
failure path the status is set to `Error` but no disconnect is
performed; and a panic is recovered locally and logged, but on the panic
path no disconnect is performed and the status is set neither to `Error`
nor to `Disconnected`. -/
theorem handleSessionConnection_exit_paths
    (genImage : String → Option String) (qrChanOk cOk hasID : Bool)
    (events : List QREvent) :
    (handleSessionConnection genImage qrChanOk true true false events).disconnectCalled
        = true ∧
    (handleSessionConnection genImage qrChanOk cOk false false events).disconnectCalled
        = true ∧
    ((handleSessionConnection genImage qrChanOk false true false events).statusUpdates
        = [ConnectionStatus.connecting, ConnectionStatus.error] ∧
      (handleSessionConnection genImage qrChanOk false true false events).disconnectCalled
        = false) ∧
    ((handleSessionConnection genImage qrChanOk cOk hasID true events).panicRecoveredLogged
        = true ∧
      (handleSessionConnection genImage qrChanOk cOk hasID true events).disconnectCalled
        = false ∧
      ConnectionStatus.error ∉
        (handleSessionConnection genImage qrChanOk cOk hasID true events).statusUpdates ∧
      ConnectionStatus.disconnected ∉
        (handleSessionConnection genImage qrChanOk cOk hasID true events).statusUpdates) := by
  refine ⟨?_, ?_, ⟨?_, ?_⟩, ⟨?_, ?_, ?_, ?_⟩⟩ <;> simp [handleSessionConnection]

/-- Claim C4 counterexample: the QR event loop performs no worker status
transition at all — in particular a `timeout` event does not set the
worker to `Error` and a `success` event does not set it to `Connected`;
both only clear the persisted payload. -/
theorem processQREvents_no_status_transition_counterexample :
    (processQREvents demoGenImage [QREvent.timeout]).statusUpdates = [] ∧
    (processQREvents demoGenImage [QREvent.timeout]).dbQRWrites = [""] ∧
    (processQREvents demoGenImage [QREvent.success]).statusUpdates = [] ∧
    (processQREvents demoGenImage [QREvent.success]).dbQRWrites = [""] := by
  decide

/-- Claim C4 amended: in the QR event loop a `code` event persists the
generated image payload (when image generation succeeds) and performs no
status transition; a `success` event clears the persisted payload and
exits the loop without itself transitioning the worker — the transition
to `Connected` is performed by the separate `Connected` client-event
handler; a `timeout` event clears the persisted payload and exits the
loop without any status transition (the worker is not set to `Error`). -/
theorem processQREvents_event_effects
    (genImage : String → Option String) (payload img : String) (rest : List QREvent)
    (h : genImage payload = some img) :
    (processQREvents genImage (QREvent.code payload :: rest)).dbQRWrites
        = img :: (processQREvents genImage rest).dbQRWrites ∧
    (processQREvents genImage (QREvent.code payload :: rest)).statusUpdates
        = (processQREvents genImage rest).statusUpdates ∧
    processQREvents genImage (QREvent.success :: rest)
        = { dbQRWrites := [""], statusUpdates := [] } ∧
    processQREvents genImage (QREvent.timeout :: rest)
        = { dbQRWrites := [""], statusUpdates := [] } ∧
    (eventHandler ClientEvent.connected).statusUpdate = some ConnectionStatus.connected := by
  refine ⟨?_, ?_, rfl, rfl, rfl⟩ <;> simp [processQREvents, h]

/-- Witness for the amended C4 at a concrete event sequence. -/
theorem processQREvents_event_effects_witness :
    demoGenImage "hello" = some ("data:image/png;base64," ++ "hello") ∧
    ((processQREvents demoGenImage (QREvent.code "hello" :: [])).dbQRWrites
        = ("data:image/png;base64," ++ "hello")
            :: (processQREvents demoGenImage []).dbQRWrites ∧
      (processQREvents demoGenImage (QREvent.code "hello" :: [])).statusUpdates
        = (processQREvents demoGenImage []).statusUpdates ∧
      processQREvents demoGenImage (QREvent.success :: [])
        = { dbQRWrites := [""], statusUpdates := [] } ∧
      processQREvents demoGenImage (QREvent.timeout :: [])
        = { dbQRWrites := [""], statusUpdates := [] } ∧
      (eventHandler ClientEvent.connected).statusUpdate
        = some ConnectionStatus.connected) :=
  ⟨by rfl,
    processQREvents_event_effects demoGenImage "hello" ("data:image/png;base64," ++ "hello")
      [] (by rfl)⟩

/-- Claim C8 counterexample: on the successful registration path of
`StartSession`, the database read (`GetByID`) and the device retrieval
(`GetOrCreateDevice`) are both performed while the registry mutex is
held, contradicting the claim that the lock is never held across a
blocking I/O call. -/
theorem startSession_io_under_lock_counterexample :
    ioUnderLock (startSessionTrace false false false true true) false
        = [RegAction.dbRead, RegAction.deviceGet] ∧
    RegAction.dbRead ∈ ioUnderLock (startSessionTrace false false false true true) false := by
  decide

/-- Claim C8 amended: the registry lock is never held across the
external-client connect — that call happens only in the Worker's own
thread after registration completes and the lock is released — but
inside `StartSession` the lock IS held across the database read
(`GetByID`) and the device/credential retrieval (`GetOrCreateDevice`);
on every path those are the only I/O actions that can occur under the
lock. -/
theorem startSession_lock_discipline (e a c d g : Bool) :
    RegAction.clientConnect ∉ ioUnderLock (startSessionTrace e a c d g) false ∧
    RegAction.clientConnect ∉ ioUnderLock workerThreadTrace false ∧
    (∀ x, x ∈ ioUnderLock (startSessionTrace e a c d g) false →
      x = RegAction.dbRead ∨ x = RegAction.deviceGet) ∧
    ioUnderLock (startSessionTrace false false false true true) false
        = [RegAction.dbRead, RegAction.deviceGet] := by
  cases e <;> cases a <;> cases c <;> cases d <;> cases g <;> decide

end WazMeow
